import Mathlib

/-!
Shallow embedding of the calendar client's session store, HTTP client
interceptors, goal CRUD (mock backend), and the optimistic toggle hooks,
translated from `src/services/api.ts`, `src/services/storage.ts`
(`src/unnamed/part_006`), `src/hooks/useCalendars.ts` (useCalendars and
useGoals hooks) and `src/store/slices/authSlice.ts`.
-/

namespace CalendarSpec

/-! ## Persisted session store (StorageService, src/unnamed/part_006) -/

/-- Cached user record (types/index.ts `User`, restricted to the fields the
session logic reads: `id`, `email`, plus a display name). -/
structure StoredUser where
  id : Nat
  email : String
  name : String
deriving DecidableEq, Repr

/-- The three durable keys of the persisted session store. -/
structure Storage where
  accessToken : Option String
  refreshToken : Option String
  userData : Option StoredUser
deriving DecidableEq, Repr

/-- JavaScript truthiness of an optional string: absent and `""` are falsy. -/
def truthyStr : Option String → Bool
  | none => false
  | some s => s ≠ ""

/-- `StorageService.saveTokens`: persists both tokens. -/
def saveTokens (st : Storage) (access refresh : String) : Storage :=
  { st with accessToken := some access, refreshToken := some refresh }

/-- `StorageService.clearTokens`. -/
def clearTokens (st : Storage) : Storage :=
  { st with accessToken := none, refreshToken := none }

/-- `StorageService.clearUser`. -/
def clearUser (st : Storage) : Storage :=
  { st with userData := none }

/-- `StorageService.clearAll`: removes tokens and the user record. -/
def clearAll (st : Storage) : Storage :=
  clearUser (clearTokens st)

/-- JS truthiness of the user-record fields checked by the code
(`user && user.email && user.id`). -/
def validStoredUser : Option StoredUser → Bool
  | none => false
  | some u => u.email ≠ "" && u.id ≠ 0

/-- `StorageService.getUser`: returns the cached record, but an invalid
record (missing email or id) is purged and treated as absent. -/
def getUser (st : Storage) : Option StoredUser × Storage :=
  match st.userData with
  | none => (none, st)
  | some u =>
      if u.email = "" ∨ u.id = 0 then (none, clearUser st)
      else (some u, st)

/-- `StorageService.isLoggedIn` (src/unnamed/part_006): true iff both tokens
are truthy and the (validated) user record is present; if tokens exist
without a valid user, everything is cleared and false is returned. -/
def isLoggedIn (st : Storage) : Bool × Storage :=
  let access := st.accessToken
  let refresh := st.refreshToken
  let gu := getUser st
  let hasTokens := truthyStr access && truthyStr refresh
  let hasValidUser := validStoredUser gu.1
  if hasTokens && !hasValidUser then (false, clearAll gu.2)
  else (hasTokens && hasValidUser, gu.2)

/-! ## HTTP client core (ApiService interceptors, src/src/services/api.ts) -/

/-- Outcome of one HTTP exchange: a 2xx response with a body, or a failure
carrying the HTTP status (the axios error the interceptor inspects). -/
inductive Resp
  | ok (body : String)
  | err (status : Nat)
deriving DecidableEq, Repr

/-- The calls the client emits, as observed on the wire: a client-issued
request with its Authorization header, or the bare `axios.post` to the
refresh endpoint carrying the refresh token (no interceptor, no bearer). -/
inductive ApiCall
  | request (auth : Option String)
  | refreshPost (refreshToken : String)
deriving DecidableEq, Repr

/-- Scripted server behavior for one request's lifecycle: the response to
the initial request, to the refresh call, and to the re-issued request. -/
structure Script where
  first : Resp
  refreshResp : Resp
  second : Resp
deriving DecidableEq, Repr

/-- Result of running one request through the client: final storage, the
calls issued in order, and the value delivered to the caller. -/
structure RunOut where
  store : Storage
  calls : List ApiCall
  result : Resp
deriving DecidableEq, Repr

/-- Request interceptor: reads the access token from the store at issue
time and attaches `Bearer <token>` when the token is truthy. -/
def authHeader (st : Storage) : Option String :=
  match st.accessToken with
  | none => none
  | some t => if t = "" then none else some ("Bearer " ++ t)

/-- The re-issued request (`this.client(originalRequest)` with
`_retry = true`): the request interceptor re-reads the store, and on a 401
the response interceptor's `!originalRequest._retry` test now fails, so any
error propagates unchanged. -/
def sendRetried (st : Storage) (sc : Script) : RunOut :=
  let hdr := authHeader st
  match sc.second with
  | Resp.ok b => ⟨st, [ApiCall.request hdr], Resp.ok b⟩
  | Resp.err s =>
      if s = 401 && !true then ⟨st, [ApiCall.request hdr], Resp.err s⟩
      else ⟨st, [ApiCall.request hdr], Resp.err s⟩

/-- A fresh request through the client (`_retry` initially unset): on a 401,
read the refresh token; if truthy, call the refresh endpoint; on success
persist the new access token (refresh unchanged) and re-issue once; on
refresh failure clear the whole session and reject with the original
error; if the refresh token is absent the original error propagates. -/
def send (st : Storage) (sc : Script) : RunOut :=
  let hdr := authHeader st
  match sc.first with
  | Resp.ok b => ⟨st, [ApiCall.request hdr], Resp.ok b⟩
  | Resp.err s =>
      if s = 401 then
        match st.refreshToken with
        | some rt =>
            if rt = "" then ⟨st, [ApiCall.request hdr], Resp.err s⟩
            else
              match sc.refreshResp with
              | Resp.ok newTok =>
                  let st2 := saveTokens st newTok rt
                  let r := sendRetried st2 sc
                  ⟨r.store, ApiCall.request hdr :: ApiCall.refreshPost rt :: r.calls,
                    r.result⟩
              | Resp.err _ =>
                  ⟨clearAll st, [ApiCall.request hdr, ApiCall.refreshPost rt],
                    Resp.err s⟩
        | none => ⟨st, [ApiCall.request hdr], Resp.err s⟩
      else ⟨st, [ApiCall.request hdr], Resp.err s⟩

/-- Number of refresh-endpoint calls in a trace. -/
def countRefreshCalls (calls : List ApiCall) : Nat :=
  calls.countP fun c => match c with
    | ApiCall.refreshPost _ => true
    | _ => false

/-- Number of client-issued (interceptor-wrapped) requests in a trace. -/
def countRequestCalls (calls : List ApiCall) : Nat :=
  calls.countP fun c => match c with
    | ApiCall.request _ => true
    | _ => false

/-! ## Logout (ApiService.logout and authSlice logoutUser reducers) -/

/-- `ApiService.logout`: best-effort server notification inside
try/catch, with `storageService.clearAll()` in the `finally` block.
Returns the final storage and whether a server logout call was issued. -/
def logoutApi (st : Storage) (serverResp : Resp) : Storage × Bool :=
  match st.refreshToken with
  | some rt =>
      if rt = "" then (clearAll st, false)
      else
        match serverResp with
        | Resp.ok _ => (clearAll st, true)
        | Resp.err _ => (clearAll st, true)
  | none => (clearAll st, false)

/-- Redux auth slice state (authSlice.ts). -/
structure AuthState where
  user : Option StoredUser
  isAuthenticated : Bool
  isLoading : Bool
  error : Option String
deriving DecidableEq, Repr

/-- `logoutUser.fulfilled` reducer. -/
def logoutFulfilled (s : AuthState) : AuthState :=
  { s with
    isLoading := false
    user := none
    isAuthenticated := false
    error := none }

/-- `logoutUser.rejected` reducer. -/
def logoutRejected (s : AuthState) (msg : String) : AuthState :=
  { s with
    isLoading := false
    user := none
    isAuthenticated := false
    error := some msg }

/-! ## Goals (types/index.ts `Goal`; ApiService mock goal CRUD) -/

/-- A goal record (types/index.ts). Numeric fields are rationals standing
for JS numbers; optional TS fields are `Option`. -/
structure Goal where
  id : String
  title : String
  description : Option String
  frequency : String
  priority : String
  status : String
  target_value : Option ℚ
  current_value : ℚ
  unit : Option String
  start_date : String
  end_date : Option String
  color : String
  is_active : Bool
  is_completed : Bool
  progress_percentage : ℚ
  created_at : String
  updated_at : String
deriving DecidableEq, Repr

/-- `Partial<Goal>`: an update carries only the fields it sets. -/
structure GoalUpdate where
  title : Option String := none
  description : Option String := none
  frequency : Option String := none
  priority : Option String := none
  status : Option String := none
  target_value : Option ℚ := none
  current_value : Option ℚ := none
  unit : Option String := none
  start_date : Option String := none
  end_date : Option String := none
  color : Option String := none
  is_active : Option Bool := none
  is_completed : Option Bool := none
  progress_percentage : Option ℚ := none
deriving DecidableEq, Repr

/-- JS `a || b` for an optional string: the default is used when the field
is absent or empty. -/
def jsOr (o : Option String) (d : String) : String :=
  match o with
  | none => d
  | some s => if s = "" then d else s

/-- The spread `{...existingGoal, ...updates, updated_at: now}` in
`ApiService.updateGoal`. -/
def applyUpdates (g : Goal) (u : GoalUpdate) (now : String) : Goal :=
  { id := g.id
    title := u.title.getD g.title
    description := u.description.orElse fun _ => g.description
    frequency := u.frequency.getD g.frequency
    priority := u.priority.getD g.priority
    status := u.status.getD g.status
    target_value := u.target_value.orElse fun _ => g.target_value
    current_value := u.current_value.getD g.current_value
    unit := u.unit.orElse fun _ => g.unit
    start_date := u.start_date.getD g.start_date
    end_date := u.end_date.orElse fun _ => g.end_date
    color := u.color.getD g.color
    is_active := u.is_active.getD g.is_active
    is_completed := u.is_completed.getD g.is_completed
    progress_percentage := u.progress_percentage.getD g.progress_percentage
    created_at := g.created_at
    updated_at := now }

/-- JS `Math.min` on two numbers. -/
def jsMin (a b : ℚ) : ℚ :=
  if a ≤ b then a else b

/-- The recomputation step of `ApiService.updateGoal`:
`if (updatedGoal.target_value && updatedGoal.current_value !== undefined)`
— `target_value` must be truthy (present and nonzero; `current_value` is a
required field, so its `!== undefined` test always passes) — then
`progress_percentage = Math.min(100, current / target * 100)`. -/
def recomputeProgress (g : Goal) : Goal :=
  match g.target_value with
  | some t =>
      if t = 0 then g
      else { g with progress_percentage := jsMin 100 (g.current_value / t * 100) }
  | none => g

/-- The goal produced by `ApiService.updateGoal` for a found goal. -/
def updatedGoalOf (g : Goal) (u : GoalUpdate) (now : String) : Goal :=
  recomputeProgress (applyUpdates g u now)

/-- `ApiService.updateGoal` (mock backend in src/src/services/api.ts):
find by id (missing → the outer catch rethrows "Failed to update goal"),
merge the updates, recompute progress, store back. Returns the updated
list and the updated goal. -/
def updateGoal (goals : List Goal) (goalId : String) (u : GoalUpdate)
    (now : String) : Except String (List Goal × Goal) :=
  match goals.findIdx? (fun g => g.id = goalId) with
  | none => Except.error "Failed to update goal"
  | some i =>
      match goals.get? i with
      | none => Except.error "Failed to update goal"
      | some g =>
          let g2 := updatedGoalOf g u now
          Except.ok (goals.set i g2, g2)

/-- `ApiService.createGoal` (mock backend): build the new goal from the
supplied partial data with the source's `||` defaults, compute the initial
progress only when both `target_value` and `current_value` are truthy, and
append it. -/
def createGoal (goals : List Goal) (u : GoalUpdate) (newId now today : String) :
    List Goal × Goal :=
  let newGoal : Goal :=
    { id := newId
      title := jsOr u.title ""
      description := u.description
      frequency := jsOr u.frequency "daily"
      priority := jsOr u.priority "medium"
      status := jsOr u.status "active"
      target_value := u.target_value
      current_value := u.current_value.getD 0
      unit := u.unit
      start_date := jsOr u.start_date today
      end_date := u.end_date
      color := jsOr u.color "#4CAF50"
      is_active := u.is_active.getD true
      is_completed := u.is_completed.getD false
      progress_percentage :=
        match u.target_value, u.current_value with
        | some t, some c =>
            if t = 0 ∨ c = 0 then 0 else jsMin 100 (c / t * 100)
        | _, _ => 0
      created_at := now
      updated_at := now }
  (goals ++ [newGoal], newGoal)

/-- `ApiService.toggleGoalCompletion`: one update writing `is_completed`
and the matching `status` together. -/
def toggleGoalCompletionApi (goals : List Goal) (goalId : String)
    (isCompleted : Bool) (now : String) : Except String (List Goal × Goal) :=
  let status := if isCompleted then "completed" else "active"
  updateGoal goals goalId
    { is_completed := some isCompleted, status := some status } now

/-! ## Optimistic toggle hooks (src/src/hooks/useCalendars.ts) -/

/-- The optimistic `setGoals` in `useGoals.toggleGoalCompletion`: flip the
matching goal to `newState` and write the derived `status` with it. -/
def optimisticToggleApply (gs : List Goal) (goalId : String)
    (newState : Bool) : List Goal :=
  gs.map fun g =>
    if g.id = goalId then
      { g with
        is_completed := newState
        status := if newState then "completed" else "active" }
    else g

/-- The failure-path `setGoals` in `useGoals.toggleGoalCompletion`: write
`!newCompletionState` (and its derived status) back, unconditionally. -/
def toggleRevertApply (gs : List Goal) (goalId : String)
    (newState : Bool) : List Goal :=
  gs.map fun g =>
    if g.id = goalId then
      { g with
        is_completed := !newState
        status := if !newState then "completed" else "active" }
    else g

/-- Observable outcome of one hook toggle: resulting local goals, the
`(goalId, isCompleted)` payloads sent to the API, and the error state. -/
structure GoalToggleOutcome where
  goals : List Goal
  apiCalls : List (String × Bool)
  error : Option String
deriving DecidableEq, Repr

/-- `useGoals.toggleGoalCompletion` run to completion, with the network
outcome supplied as `apiFails`: unknown id returns immediately; otherwise
optimistic apply, one API call, and on failure the unconditional revert
plus a surfaced error. -/
def toggleGoalCompletionHook (gs : List Goal) (goalId : String)
    (apiFails : Bool) : GoalToggleOutcome :=
  match gs.find? (fun g => g.id = goalId) with
  | none => ⟨gs, [], none⟩
  | some goal =>
      let newState := !goal.is_completed
      let applied := optimisticToggleApply gs goalId newState
      if apiFails then
        ⟨toggleRevertApply applied goalId newState, [(goalId, newState)],
          some "Failed to update goal completion"⟩
      else
        ⟨applied, [(goalId, newState)], none⟩

/-- Calendar record as the `useCalendars` hook reads it (`id`, `name`,
`color`, and the `is_visible` flag it toggles). -/
structure CalendarRec where
  id : String
  name : String
  color : String
  is_visible : Bool
deriving DecidableEq, Repr

/-- Outcome of one calendar-visibility toggle. -/
structure CalToggleOutcome where
  calendars : List CalendarRec
  apiCalls : List (String × Bool)
  error : Option String
deriving DecidableEq, Repr

/-- `useCalendars.toggleCalendarVisibility`: unknown id returns
immediately; otherwise optimistic flip, one update call, and on failure the
flag is flipped back (the catch only logs; it never sets the error). -/
def toggleCalendarVisibilityHook (cs : List CalendarRec) (calendarId : String)
    (apiFails : Bool) : CalToggleOutcome :=
  match cs.find? (fun c => c.id = calendarId) with
  | none => ⟨cs, [], none⟩
  | some calendar =>
      let newVisibility := !calendar.is_visible
      let applied := cs.map fun c =>
        if c.id = calendarId then { c with is_visible := newVisibility } else c
      if apiFails then
        ⟨applied.map fun c =>
            if c.id = calendarId then { c with is_visible := !newVisibility }
            else c,
          [(calendarId, newVisibility)], none⟩
      else
        ⟨applied, [(calendarId, newVisibility)], none⟩

/-! ## Overlapping toggles on one goal (useGoals.toggleGoalCompletion,
interleaved executions) -/

/-- Derived status written together with a completion value. -/
def statusFor (b : Bool) : String :=
  if b then "completed" else "active"

/-- Local state of the one toggled goal plus bookkeeping: in-flight
operations (each remembering the `newCompletionState` it captured) and the
value most recently confirmed by a successful server response. -/
structure SyncState where
  current : Bool
  status : String
  pending : List (Nat × Bool)
  lastConfirmed : Option Bool
  error : Option String
deriving DecidableEq, Repr

/-- Interleaving events: an operation starts (reads local state, applies
its flip, issues its call), or its network call resolves. -/
inductive ToggleEv
  | start (opId : Nat)
  | resolve (opId : Nat) (ok : Bool)
deriving DecidableEq, Repr

/-- One event of `useGoals.toggleGoalCompletion`: `start` performs the
optimistic apply; `resolve _ true` leaves local state alone (the code does
nothing on success); `resolve _ false` performs the unconditional revert
`is_completed := !newCompletionState` and surfaces the error. -/
def stepToggle (s : SyncState) : ToggleEv → SyncState
  | ToggleEv.start opId =>
      let newState := !s.current
      { s with
        current := newState
        status := statusFor newState
        pending := (opId, newState) :: s.pending }
  | ToggleEv.resolve opId ok =>
      match (s.pending.find? fun p => p.1 = opId).map (fun p => p.2) with
      | none => s
      | some newState =>
          let rest := s.pending.filter fun p => p.1 ≠ opId
          if ok then
            { s with pending := rest, lastConfirmed := some newState }
          else
            { s with
              current := !newState
              status := statusFor (!newState)
              pending := rest
              error := some "Failed to update goal completion" }

/-- Run an interleaving of toggle operations. -/
def runToggles (s : SyncState) (evs : List ToggleEv) : SyncState :=
  evs.foldl stepToggle s

/-- A goal that is locally not completed, with no operation in flight. -/
def initialSync : SyncState :=
  ⟨false, "active", [], none, none⟩

/-! ## Concrete instances used to evaluate the definitions -/

/-- A sample stored goal: 5 of 20 pages read, 25 percent progress. -/
def gEx : Goal :=
  { id := "1", title := "Read", description := none, frequency := "daily",
    priority := "medium", status := "active", target_value := none,
    current_value := 5, unit := none, start_date := "d", end_date := none,
    color := "#2196F3", is_active := true, is_completed := false,
    progress_percentage := 25, created_at := "t0", updated_at := "t0" }

/-- A session with both tokens and a valid user. -/
def stEx : Storage := ⟨some "A", some "R", some ⟨1, "a@b.com", "a"⟩⟩

/-- A session with an access token but no refresh token. -/
def stNoRefresh : Storage := ⟨some "A", none, some ⟨1, "a@b.com", "a"⟩⟩

/-- A sample calendar. -/
def calEx : CalendarRec := ⟨"1", "Personal", "#2196F3", true⟩

/-- Three overlapping toggles on one goal: operations 0, 1, 2 all start
before any resolves; operation 2's call succeeds (server confirms true),
then operation 0's call fails and its rollback runs. -/
def cexEvs : List ToggleEv :=
  [ToggleEv.start 0, ToggleEv.start 1, ToggleEv.start 2,
   ToggleEv.resolve 2 true, ToggleEv.resolve 0 false]

/-! ## Helper lemmas -/

/-- The validity the login check computes from the purged record equals the
validity of the raw stored record. -/
theorem validStoredUser_getUser (st : Storage) :
    validStoredUser (getUser st).1 = validStoredUser st.userData := by
  rcases st with ⟨a, r, u⟩
  cases u with
  | none => rfl
  | some u0 =>
      by_cases he : u0.email = ""
      · simp [getUser, validStoredUser, he]
      · by_cases hi : u0.id = 0
        · simp [getUser, validStoredUser, he, hi]
        · simp [getUser, validStoredUser, he, hi]

/-- getUser never touches the tokens. -/
theorem getUser_tokens (st : Storage) :
    (getUser st).2.accessToken = st.accessToken ∧
    (getUser st).2.refreshToken = st.refreshToken := by
  rcases st with ⟨a, r, u⟩
  cases u with
  | none => exact ⟨rfl, rfl⟩
  | some u0 =>
      by_cases he : u0.email = ""
      · simp [getUser, he, clearUser]
      · by_cases hi : u0.id = 0 <;> simp [getUser, he, hi, clearUser]

/-- Clearing always yields the empty session. -/
theorem clearAll_eq (st : Storage) : clearAll st = Storage.mk none none none := rfl

/-- The invariant of claim C8: completion flag and status agree. -/
def agreeCS (g : Goal) : Prop :=
  g.is_completed = true ↔ g.status = "completed"

/-- A goal written by the toggle paths (both fields together) agrees. -/
theorem agree_toggleWrite (x : Goal) (b : Bool) :
    agreeCS { x with is_completed := b,
                     status := if b then "completed" else "active" } := by
  cases b <;> simp [agreeCS]

/-- recomputeProgress leaves every field but the percentage alone. -/
theorem recomputeProgress_fields (g : Goal) :
    (recomputeProgress g).is_completed = g.is_completed ∧
    (recomputeProgress g).status = g.status ∧
    (recomputeProgress g).target_value = g.target_value ∧
    (recomputeProgress g).current_value = g.current_value := by
  unfold recomputeProgress
  rcases h : g.target_value with _ | t
  · simp [h]
  · by_cases ht : t = 0 <;> simp [h, ht]

/-- A goal in the optimistic apply's output whose id was targeted agrees. -/
theorem optimistic_agree {gs : List Goal} {gid : String} {b : Bool} :
    ∀ g ∈ optimisticToggleApply gs gid b, g.id = gid → agreeCS g := by
  intro g hg
  obtain ⟨x, hx, rfl⟩ := List.mem_map.mp hg
  by_cases hid : x.id = gid
  · simp only [hid, if_true]
    exact fun _ => agree_toggleWrite x b
  · simp only [hid, if_false]
    exact fun hgid => hgid.elim

/-- A goal in the revert's output whose id was targeted agrees. -/
theorem revert_agree {gs : List Goal} {gid : String} {b : Bool} :
    ∀ g ∈ toggleRevertApply gs gid b, g.id = gid → agreeCS g := by
  intro g hg
  obtain ⟨x, hx, rfl⟩ := List.mem_map.mp hg
  by_cases hid : x.id = gid
  · simp only [hid, if_true]
    exact fun _ => agree_toggleWrite x (!b)
  · simp only [hid, if_false]
    exact fun hgid => hgid.elim

/-- The optimistic apply preserves the agreement invariant. -/
theorem optimistic_preserve {gs : List Goal} {gid : String} {b : Bool}
    (h : ∀ g ∈ gs, agreeCS g) :
    ∀ g ∈ optimisticToggleApply gs gid b, agreeCS g := by
  intro g hg
  obtain ⟨x, hx, rfl⟩ := List.mem_map.mp hg
  by_cases hid : x.id = gid
  · simp only [hid, if_true]
    exact agree_toggleWrite x b
  · simp only [hid, if_false]
    exact h x hx

/-- The revert preserves the agreement invariant. -/
theorem revert_preserve {gs : List Goal} {gid : String} {b : Bool}
    (h : ∀ g ∈ gs, agreeCS g) :
    ∀ g ∈ toggleRevertApply gs gid b, agreeCS g := by
  intro g hg
  obtain ⟨x, hx, rfl⟩ := List.mem_map.mp hg
  by_cases hid : x.id = gid
  · simp only [hid, if_true]
    exact agree_toggleWrite x (!b)
  · simp only [hid, if_false]
    exact h x hx

/-- Every ok result of updateGoal is the merge-and-recompute of a member
of the input list. -/
theorem updateGoal_ok {gs : List Goal} {gid : String} {u : GoalUpdate}
    {now : String} {out : List Goal × Goal}
    (h : updateGoal gs gid u now = Except.ok out) :
    ∃ g, g ∈ gs ∧ out.2 = updatedGoalOf g u now := by
  unfold updateGoal at h
  split at h
  · cases h
  · split at h
    · cases h
    · rename_i g hget
      cases h
      exact ⟨g, List.get?_mem hget, rfl⟩

/-- The update result's flag and status are the merged values: the
recomputation step touches neither. -/
theorem updatedGoalOf_flag_status (g : Goal) (u : GoalUpdate) (now : String) :
    (updatedGoalOf g u now).is_completed = u.is_completed.getD g.is_completed ∧
    (updatedGoalOf g u now).status = u.status.getD g.status := by
  unfold updatedGoalOf
  have h := recomputeProgress_fields (applyUpdates g u now)
  rw [h.1, h.2.1]
  exact ⟨rfl, rfl⟩

/-! ## Claim theorems -/

/-- Claim C4: isLoggedIn returns true iff both tokens are present (truthy)
and the stored user record is valid (non-empty email, non-zero id); and
whenever both tokens are present but the user record is absent or invalid,
isLoggedIn clears the entire session before returning false — token
presence alone never implies logged-in. -/
theorem isLoggedIn_iff_tokens_and_valid_user (st : Storage) :
    ((isLoggedIn st).1 = true ↔
      (truthyStr st.accessToken = true ∧ truthyStr st.refreshToken = true ∧
       validStoredUser st.userData = true)) ∧
    (truthyStr st.accessToken = true → truthyStr st.refreshToken = true →
      validStoredUser st.userData = false →
      (isLoggedIn st).1 = false ∧
      (isLoggedIn st).2 = Storage.mk none none none) := by
  have hval := validStoredUser_getUser st
  cases hA : truthyStr st.accessToken <;>
    cases hR : truthyStr st.refreshToken <;>
      cases hV : validStoredUser st.userData <;>
        simp_all [isLoggedIn, clearAll_eq]

/-- Witness for C4 at concrete sessions: the valid session is logged in;
tokens with an invalid (id = 0) user yield false and a fully cleared
store. -/
theorem isLoggedIn_iff_tokens_and_valid_user_witness :
    (isLoggedIn ⟨some "A", some "R", some ⟨0, "a@b.com", "a"⟩⟩).1 = false ∧
    (isLoggedIn ⟨some "A", some "R", some ⟨0, "a@b.com", "a"⟩⟩).2
      = Storage.mk none none none :=
  (isLoggedIn_iff_tokens_and_valid_user
    ⟨some "A", some "R", some ⟨0, "a@b.com", "a"⟩⟩).2
    (by decide) (by decide) (by decide)

/-- Claim C9: logout always terminates the local session: for every
storage state and every server outcome (success or failure; no call at all
when the refresh token is absent), the persisted tokens and user record
are cleared, and both logout reducers transition to the unauthenticated
state with no user. -/
theorem logout_always_clears_locally (st : Storage) (resp : Resp)
    (s : AuthState) (msg : String) :
    (logoutApi st resp).1 = Storage.mk none none none ∧
    (logoutFulfilled s).isAuthenticated = false ∧
    (logoutFulfilled s).user = none ∧
    (logoutRejected s msg).isAuthenticated = false ∧
    (logoutRejected s msg).user = none := by
  refine ⟨?_, rfl, rfl, rfl, rfl⟩
  rcases st with ⟨a, r, u⟩
  cases r with
  | none => rfl
  | some rt =>
      cases resp <;> by_cases h : rt = "" <;> simp [logoutApi, h, clearAll_eq]

/-- Claim C10: toggling a goal id that is not in the local list is a
no-op: state unchanged, no API call, no error; same for an unknown
calendar id. -/
theorem toggle_unknown_id_noop :
    (∀ (gs : List Goal) (gid : String) (fails : Bool),
      (∀ g ∈ gs, g.id ≠ gid) →
      toggleGoalCompletionHook gs gid fails = ⟨gs, [], none⟩) ∧
    (∀ (cs : List CalendarRec) (cid : String) (fails : Bool),
      (∀ c ∈ cs, c.id ≠ cid) →
      toggleCalendarVisibilityHook cs cid fails = ⟨cs, [], none⟩) := by
  constructor
  · intro gs gid fails h
    have hnone : gs.find? (fun g => g.id = gid) = none := by
      rw [List.find?_eq_none]
      intro g hg
      simpa using h g hg
    simp [toggleGoalCompletionHook, hnone]
  · intro cs cid fails h
    have hnone : cs.find? (fun c => c.id = cid) = none := by
      rw [List.find?_eq_none]
      intro c hc
      simpa using h c hc
    simp [toggleCalendarVisibilityHook, hnone]

/-- Witness for C10: toggling the absent id "zzz" leaves the one-goal list
and the one-calendar list untouched, with no API call and no error. -/
theorem toggle_unknown_id_noop_witness :
    toggleGoalCompletionHook [gEx] "zzz" true = ⟨[gEx], [], none⟩ ∧
    toggleCalendarVisibilityHook [calEx] "zzz" true = ⟨[calEx], [], none⟩ :=
  ⟨toggle_unknown_id_noop.1 [gEx] "zzz" true (by decide),
   toggle_unknown_id_noop.2 [calEx] "zzz" true (by decide)⟩

/-- Claim C2: a single 401 on a non-auth request (with a refresh token
stored and a successful refresh) triggers exactly one refresh call and
exactly one re-issue of the original request (two client requests in
total); the run's result is whatever the retried request returns, and in
particular a second 401 propagates as a failure with no second refresh —
the interceptor never loops. -/
theorem refresh_retry_at_most_once (st : Storage) (sc : Script)
    (rt tok : String) (hrt : st.refreshToken = some rt) (hne : rt ≠ "")
    (h1 : sc.first = Resp.err 401) (h2 : sc.refreshResp = Resp.ok tok) :
    countRefreshCalls (send st sc).calls = 1 ∧
    countRequestCalls (send st sc).calls = 2 ∧
    (send st sc).result = sc.second ∧
    (sc.second = Resp.err 401 → (send st sc).result = Resp.err 401) := by
  rcases sc with ⟨f, rr, s2⟩
  subst h1
  subst h2
  unfold send
  simp only [hrt, hne]
  cases s2 <;>
    simp [sendRetried, countRefreshCalls, countRequestCalls, hne]

/-- Witness for C2: with tokens stored, a 401, a successful refresh and a
second 401 on the retry, the trace holds one refresh call and two
requests, and the caller receives the 401. -/
theorem refresh_retry_at_most_once_witness :
    countRefreshCalls
        (send stEx ⟨Resp.err 401, Resp.ok "N", Resp.err 401⟩).calls = 1 ∧
    countRequestCalls
        (send stEx ⟨Resp.err 401, Resp.ok "N", Resp.err 401⟩).calls = 2 ∧
    (send stEx ⟨Resp.err 401, Resp.ok "N", Resp.err 401⟩).result
      = Resp.err 401 :=
  have h := refresh_retry_at_most_once stEx
    ⟨Resp.err 401, Resp.ok "N", Resp.err 401⟩ "R" "N" rfl (by decide) rfl rfl
  ⟨h.1, h.2.1, h.2.2.2 rfl⟩

/-- Claim C3's counterexample: the error delivered to the caller after a
failed refresh is the very same value as the error of a generic 401
request on which no refresh was even attempted — there is no
distinguishable "session expired" error (only the session clearing
differs). -/
theorem refresh_failure_error_indistinguishable :
    (send stEx ⟨Resp.err 401, Resp.err 401, Resp.err 500⟩).result
      = (send stNoRefresh ⟨Resp.err 401, Resp.ok "x", Resp.ok "y"⟩).result ∧
    (send stEx ⟨Resp.err 401, Resp.err 401, Resp.err 500⟩).result
      = Resp.err 401 ∧
    (send stEx ⟨Resp.err 401, Resp.err 401, Resp.err 500⟩).store
      = Storage.mk none none none ∧
    countRefreshCalls
        (send stNoRefresh ⟨Resp.err 401, Resp.ok "x", Resp.ok "y"⟩).calls
      = 0 := by
  decide

/-- Claim C3 (amended): when the refresh call fails, the entire persisted
session (both tokens and the user record) is cleared, and the caller
receives the original failure unchanged — not a distinguishable "session
expired" error. -/
theorem refresh_failure_clears_session_propagates_original (st : Storage)
    (sc : Script) (rt : String) (s : Nat) (hrt : st.refreshToken = some rt)
    (hne : rt ≠ "") (h1 : sc.first = Resp.err 401)
    (h2 : sc.refreshResp = Resp.err s) :
    (send st sc).store = Storage.mk none none none ∧
    (send st sc).result = sc.first := by
  rcases sc with ⟨f, rr, s2⟩
  subst h1
  subst h2
  unfold send
  simp [hrt, hne, clearAll_eq]

/-- Witness for the amended C3: concrete refresh failure clears the store
and returns the original 401. -/
theorem refresh_failure_clears_session_witness :
    (send stEx ⟨Resp.err 401, Resp.err 500, Resp.ok "y"⟩).store
      = Storage.mk none none none ∧
    (send stEx ⟨Resp.err 401, Resp.err 500, Resp.ok "y"⟩).result
      = Resp.err 401 :=
  refresh_failure_clears_session_propagates_original stEx
    ⟨Resp.err 401, Resp.err 500, Resp.ok "y"⟩ "R" 500 rfl (by decide) rfl rfl

/-- Claim C5: on a successful 401-triggered refresh, the new access token
is persisted while the stored refresh token and user record are unchanged,
and the original request is re-issued exactly once, carrying the new
access token as its bearer credential. -/
theorem refresh_success_persists_token_retries_once (st : Storage)
    (sc : Script) (rt tok : String) (hrt : st.refreshToken = some rt)
    (hne : rt ≠ "") (htok : tok ≠ "") (h1 : sc.first = Resp.err 401)
    (h2 : sc.refreshResp = Resp.ok tok) :
    (send st sc).store.accessToken = some tok ∧
    (send st sc).store.refreshToken = st.refreshToken ∧
    (send st sc).store.userData = st.userData ∧
    (send st sc).calls =
      [ApiCall.request (authHeader st), ApiCall.refreshPost rt,
       ApiCall.request (some ("Bearer " ++ tok))] := by
  rcases sc with ⟨f, rr, s2⟩
  subst h1
  subst h2
  unfold send
  simp only [hrt, hne]
  cases s2 <;> simp [sendRetried, saveTokens, authHeader, htok, hrt, hne]

/-- Witness for C5 at a concrete run. -/
theorem refresh_success_persists_token_witness :
    (send stEx ⟨Resp.err 401, Resp.ok "N", Resp.ok "g"⟩).store.accessToken
      = some "N" ∧
    (send stEx ⟨Resp.err 401, Resp.ok "N", Resp.ok "g"⟩).store.refreshToken
      = stEx.refreshToken ∧
    (send stEx ⟨Resp.err 401, Resp.ok "N", Resp.ok "g"⟩).calls =
      [ApiCall.request (authHeader stEx), ApiCall.refreshPost "R",
       ApiCall.request (some ("Bearer " ++ "N"))] :=
  have h := refresh_success_persists_token_retries_once stEx
    ⟨Resp.err 401, Resp.ok "N", Resp.ok "g"⟩ "R" "N" rfl (by decide)
    (by decide) rfl rfl
  ⟨h.1, h.2.1, h.2.2.2⟩

/-- Claim C6: every client-issued request carries the Authorization header
computed from the persisted store at the moment it is issued: each run's
first wire call is a request with the store's current bearer header; a
present access token yields a Bearer credential; and a request issued
after new tokens were saved carries the new token (nothing is cached in
the client object). -/
theorem requests_attach_fresh_bearer_token :
    (∀ (st : Storage) (sc : Script),
       (send st sc).calls.head? = some (ApiCall.request (authHeader st))) ∧
    (∀ (st : Storage) (t : String), st.accessToken = some t → t ≠ "" →
       authHeader st = some ("Bearer " ++ t)) ∧
    (∀ (st : Storage) (sc : Script) (tok rt : String), tok ≠ "" →
       (send (saveTokens st tok rt) sc).calls.head?
         = some (ApiCall.request (some ("Bearer " ++ tok)))) := by
  have hhead : ∀ (st : Storage) (sc : Script),
      (send st sc).calls.head? = some (ApiCall.request (authHeader st)) := by
    intro st sc
    rcases sc with ⟨f, rr, s2⟩
    cases f with
    | ok b => rfl
    | err s =>
        by_cases h401 : s = 401
        · subst h401
          cases hr : st.refreshToken with
          | none => simp [send, hr]
          | some rt =>
              by_cases hrt : rt = ""
              · simp [send, hr, hrt]
              · cases rr <;> simp [send, hr, hrt]
        · simp [send, h401]
  refine ⟨hhead, ?_, ?_⟩
  · intro st t ht hne
    simp [authHeader, ht, hne]
  · intro st sc tok rt htok
    rw [hhead]
    simp [saveTokens, authHeader, htok]

/-- Witness for C6: a present token "A" yields the Bearer header, and a
request issued after saving token "N" carries "Bearer N". -/
theorem requests_attach_fresh_bearer_token_witness :
    authHeader stEx = some ("Bearer " ++ "A") ∧
    (send (saveTokens stEx "N" "R") ⟨Resp.ok "g", Resp.ok "x", Resp.ok "y"⟩).calls.head?
      = some (ApiCall.request (some ("Bearer " ++ "N"))) :=
  ⟨requests_attach_fresh_bearer_token.2.1 stEx "A" rfl (by decide),
   requests_attach_fresh_bearer_token.2.2 stEx
     ⟨Resp.ok "g", Resp.ok "x", Resp.ok "y"⟩ "N" "R" (by decide)⟩

/-- Claim C7's counterexample: the claim fails in both directions on the
code. With target_value unset, an update that carries an explicit
progress_percentage (50) changes the stored progress (25 → 50), so the
percentage is not "left unchanged"; and with target_value set to 0 the
code skips the recomputation (the JS truthiness guard), leaving 25, which
differs from min(100, current/target*100) under any reading (0 as a
rational; 100 under JS float semantics). -/
theorem update_progress_claim_cex :
    updateGoal [gEx] "1" { progress_percentage := some 50 } "t1"
      = Except.ok ([updatedGoalOf gEx { progress_percentage := some 50 } "t1"],
          updatedGoalOf gEx { progress_percentage := some 50 } "t1") ∧
    gEx.target_value = none ∧
    gEx.progress_percentage = 25 ∧
    (updatedGoalOf gEx { progress_percentage := some 50 } "t1").progress_percentage
      = 50 ∧
    ((50 : ℚ) ≠ 25) ∧
    (applyUpdates gEx { target_value := some 0 } "t1").target_value = some 0 ∧
    (updatedGoalOf gEx { target_value := some 0 } "t1").progress_percentage
      = 25 ∧
    jsMin 100
      ((applyUpdates gEx { target_value := some 0 } "t1").current_value / 0 * 100)
      = 0 ∧
    ((25 : ℚ) ≠ 0) := by
  refine ⟨rfl, rfl, rfl, by decide, by decide, rfl, by decide, ?_, by decide⟩
  norm_num [applyUpdates, jsMin, gEx]

/-- Claim C7 (amended): every ok update result is the merge-and-recompute
of a stored goal; when the merged target_value is set and nonzero the
resulting progress_percentage equals min(100, current/target*100); when
the target_value is not set — or is 0, which the truthiness guard treats
the same — the percentage is not recomputed: it is the update's explicit
progress_percentage when given, otherwise the previous stored value. -/
theorem update_progress_recompute :
    (∀ (gs : List Goal) (gid : String) (u : GoalUpdate) (now : String)
       (out : List Goal × Goal), updateGoal gs gid u now = Except.ok out →
       ∃ g, g ∈ gs ∧ out.2 = updatedGoalOf g u now) ∧
    (∀ (g : Goal) (u : GoalUpdate) (now : String) (t : ℚ),
       (applyUpdates g u now).target_value = some t → t ≠ 0 →
       (updatedGoalOf g u now).progress_percentage
         = jsMin 100 ((applyUpdates g u now).current_value / t * 100)) ∧
    (∀ (g : Goal) (u : GoalUpdate) (now : String),
       ((applyUpdates g u now).target_value = none ∨
        (applyUpdates g u now).target_value = some 0) →
       (updatedGoalOf g u now).progress_percentage
         = u.progress_percentage.getD g.progress_percentage) := by
  refine ⟨fun gs gid u now out h => updateGoal_ok h, ?_, ?_⟩
  · intro g u now t ht htne
    simp [updatedGoalOf, recomputeProgress, ht, htne]
  · intro g u now h
    rcases h with h | h
    · simp only [updatedGoalOf, recomputeProgress, h]
      simp [applyUpdates]
    · simp only [updatedGoalOf, recomputeProgress, h]
      simp [applyUpdates]

/-- Witness for the amended C7: updating the sample goal's target to 20
recomputes 5/20·100 = 25 (nonzero branch), and an update with target
absent keeps the update's explicit percentage. -/
theorem update_progress_recompute_witness :
    (updatedGoalOf gEx { target_value := some 20 } "t1").progress_percentage
      = jsMin 100 ((applyUpdates gEx { target_value := some 20 } "t1").current_value / 20 * 100) ∧
    (updatedGoalOf gEx { progress_percentage := some 50 } "t1").progress_percentage
      = 50 :=
  ⟨update_progress_recompute.2.1 gEx { target_value := some 20 } "t1" 20
      rfl (by decide),
   update_progress_recompute.2.2 gEx { progress_percentage := some 50 } "t1"
      (Or.inl rfl)⟩

/-- Claim C8: the toggle path writes is_completed and status together, so
(a) any goal with the toggled id in the hook's resulting local state
satisfies is_completed = true iff status = "completed", whether the call
succeeded or was rolled back; (b) the hook preserves the invariant for the
whole list; (c) the update the backend toggle performs returns a goal
whose is_completed is the requested value, whose status is the matching
derived status, and which satisfies the invariant. -/
theorem toggle_is_completed_status_agree :
    (∀ (gs : List Goal) (gid : String) (fails : Bool) (g : Goal),
       g ∈ (toggleGoalCompletionHook gs gid fails).goals → g.id = gid →
       agreeCS g) ∧
    (∀ (gs : List Goal) (gid : String) (fails : Bool),
       (∀ g ∈ gs, agreeCS g) →
       ∀ g ∈ (toggleGoalCompletionHook gs gid fails).goals, agreeCS g) ∧
    (∀ (gs : List Goal) (gid : String) (b : Bool) (now : String)
       (out : List Goal × Goal),
       toggleGoalCompletionApi gs gid b now = Except.ok out →
       out.2.is_completed = b ∧ out.2.status = statusFor b ∧ agreeCS out.2) := by
  refine ⟨?_, ?_, ?_⟩
  · intro gs gid fails g hg hid
    unfold toggleGoalCompletionHook at hg
    cases hf : gs.find? (fun x => x.id = gid) with
    | none =>
        rw [hf] at hg
        have := List.find?_eq_none.mp hf g hg
        simp at this
        exact absurd hid this
    | some g0 =>
        rw [hf] at hg
        by_cases hfl : fails
        · subst hfl
          simp only [if_true] at hg
          exact revert_agree g hg hid
        · simp only [hfl, if_false] at hg
          exact optimistic_agree g hg hid
  · intro gs gid fails hall g hg
    unfold toggleGoalCompletionHook at hg
    cases hf : gs.find? (fun x => x.id = gid) with
    | none =>
        rw [hf] at hg
        exact hall g hg
    | some g0 =>
        rw [hf] at hg
        by_cases hfl : fails
        · subst hfl
          simp only [if_true] at hg
          exact revert_preserve (optimistic_preserve hall) g hg
        · simp only [hfl, if_false] at hg
          exact optimistic_preserve hall g hg
  · intro gs gid b now out h
    obtain ⟨g, hmem, hout⟩ := updateGoal_ok h
    rw [hout]
    refine ⟨?_, ?_, ?_⟩
    · rw [(updatedGoalOf_flag_status g _ now).1]
      rfl
    · rw [(updatedGoalOf_flag_status g _ now).2]
      cases b <;> rfl
    · rw [agreeCS, (updatedGoalOf_flag_status g _ now).1,
        (updatedGoalOf_flag_status g _ now).2]
      cases b <;> simp [applyUpdates]

/-- Witness for C8: the sample goal, found in the failure-path result of
its own toggle (the rollback rewrote both fields), satisfies the
invariant. -/
theorem toggle_is_completed_status_agree_witness : agreeCS gEx :=
  toggle_is_completed_status_agree.1 [gEx] "1" true gEx (by decide) (by decide)

/-- Claim C1's counterexample: three toggles on one goal overlap
(operations 0, 1, 2 all start before any resolves; the goal starts not
completed). Operation 2's call succeeds, so the last server-confirmed
value is true; then operation 0's failure rollback runs and — with no
expected-previous-value check — overwrites the newer local value with
false. The final local state differs from the last server-confirmed
value. -/
theorem toggle_stale_revert_clobbers_newer_value :
    (runToggles initialSync cexEvs).lastConfirmed = some true ∧
    (runToggles initialSync cexEvs).current = false ∧
    some (runToggles initialSync cexEvs).current
      ≠ (runToggles initialSync cexEvs).lastConfirmed := by
  decide

/-- Claim C1 (amended): the failure rollback is applied unconditionally —
resolving an operation as failed always writes the complement of the value
that operation set (its pre-toggle value) and the matching status,
whatever the current local state is; only a toggle that overlaps no other
operation is guaranteed consistent: run in isolation it ends at its
toggled value when the call succeeds (which is then the last
server-confirmed value) and back at its pre-toggle value when the call
fails. -/
theorem toggle_rollback_unconditional :
    (∀ (s : SyncState) (opId : Nat) (v : Bool),
       ((s.pending.find? fun p => p.1 = opId).map fun p => p.2) = some v →
       (stepToggle s (ToggleEv.resolve opId false)).current = !v ∧
       (stepToggle s (ToggleEv.resolve opId false)).status = statusFor (!v)) ∧
    (∀ (v ok : Bool) (opId : Nat),
       (runToggles ⟨v, statusFor v, [], none, none⟩
          [ToggleEv.start opId, ToggleEv.resolve opId ok]).current
         = (if ok then !v else v) ∧
       (ok = true →
        (runToggles ⟨v, statusFor v, [], none, none⟩
           [ToggleEv.start opId, ToggleEv.resolve opId ok]).lastConfirmed
          = some (!v))) := by
  constructor
  · intro s opId v h
    simp [stepToggle, h]
  · intro v ok opId
    cases v <;> cases ok <;>
      simp [runToggles, stepToggle, statusFor, List.find?]

/-- Witness for the amended C1: a failed resolve for an in-flight
operation that set true writes false even though the local state is
currently true, and an isolated successful toggle from false ends
confirmed at true. -/
theorem toggle_rollback_unconditional_witness :
    (stepToggle ⟨true, "completed", [(0, true)], none, none⟩
        (ToggleEv.resolve 0 false)).current = false ∧
    (runToggles ⟨false, statusFor false, [], none, none⟩
        [ToggleEv.start 5, ToggleEv.resolve 5 true]).lastConfirmed
      = some true :=
  ⟨(toggle_rollback_unconditional.1 ⟨true, "completed", [(0, true)], none, none⟩
      0 true (by decide)).1,
   (toggle_rollback_unconditional.2 false true 5).2 rfl⟩

end CalendarSpec
